import Mathlib

/-!
Verification of the container-magic build-step compiler.

The definitions below embed, in order:
  * `core/templates.py` — stage-chain resolution and OS detection (translated
    directly from the Python source);
  * `core/config.py` — the resolved `UserConfig` and `StageConfig` data model;
  * the build-step compiler / instruction emitter.  The emitter that the
    repository's unit tests exercise (step classification with the full keyword
    vocabulary, copy variants with chown annotation, fatal user-policy errors,
    and the Jinja template `Dockerfile.j2` that renders instructions) is not
    present in the source snapshot — the snapshot's `generators/dockerfile.py`
    is a superseded revision that reads fields (`build_steps`, `user`,
    `production`) which the accompanying `config.py` schema does not define.
    Those parts are modelled from the specification, and each such definition
    carries a doc comment beginning `Modelled from the spec:`.

All definitions are structurally recursive so that every theorem can be
checked by kernel reduction (`rfl` / `decide`) on concrete inputs.
-/

namespace ContainerMagic

/-! ### String utilities (kernel-reducible replacements for library functions) -/

/-- Prefix test on character lists (structural, reduces in the kernel). -/
def isPrefixCL : List Char → List Char → Bool
  | [], _ => true
  | _ :: _, [] => false
  | a :: as, b :: bs => a == b && isPrefixCL as bs

/-- Substring test on character lists: does `needle` occur contiguously in `hay`? -/
def containsSubCL (needle : List Char) : List Char → Bool
  | [] => isPrefixCL needle []
  | l@(_ :: rest) => isPrefixCL needle l || containsSubCL needle rest

/-- Substring test on strings; Python's `needle in hay`. -/
def containsSub (needle hay : String) : Bool :=
  containsSubCL needle.data hay.data

/-- Python's `str.lower()` (ASCII case folding suffices for image names). -/
def lowerStr (s : String) : String :=
  ⟨s.data.map Char.toLower⟩

/-- Split a character list at every occurrence of `c` (Python `str.split(c)`). -/
def splitOnCharCL (c : Char) : List Char → List (List Char)
  | [] => [[]]
  | a :: as =>
    let r := splitOnCharCL c as
    if a == c then
      [] :: r
    else
      match r with
      | [] => [[a]]
      | g :: gs => (a :: g) :: gs

/-- Split a string at every occurrence of the character `c`. -/
def splitOnChar (c : Char) (s : String) : List String :=
  (splitOnCharCL c s.data).map (fun l => ⟨l⟩)

/-- Whitespace tokenisation: split on spaces, dropping empty tokens. -/
def tokens (s : String) : List String :=
  (splitOnChar ' ' s).filter (fun t => t ≠ "")

/-- The first whitespace-delimited token of a string (`""` if none). -/
def firstWord (s : String) : String :=
  (tokens s).headD ""

/-- Join a list of strings with a separator between consecutive elements. -/
def joinWith (sep : String) : List String → String
  | [] => ""
  | [x] => x
  | x :: y :: rest => x ++ sep ++ joinWith sep (y :: rest)

/-! ### `core/templates.py` — stage-chain resolution and OS detection -/

/-- The fields of `StageConfig` (core/config.py) that the compiler consumes.
`frm` is the `from` value (image reference or stage name); `steps` is the
optional ordered step list (`None` selects the default build order);
`package_manager` and `shell` are the optional explicit overrides;
`packages_apt` / `packages_pip` are the package lists; `cached_assets` is the
list of (resolved source path, destination) pairs. -/
structure StageConfig where
  frm : String
  steps : Option (List String) := none
  package_manager : Option String := none
  shell : Option String := none
  packages_apt : List String := []
  packages_pip : List String := []
  cached_assets : List (String × String) := []
deriving DecidableEq

/-- The stage map: an ordered association list of stage name and config
(`dict[str, StageConfig]` in the source; insertion-ordered). -/
def Stages := List (String × StageConfig)

/-- Dict membership / lookup: `stages[name]` when present. -/
def lookupStage (name : String) (stages : Stages) : Option StageConfig :=
  match stages with
  | [] => none
  | (k, v) :: rest => if k = name then some v else lookupStage name rest

/-- Length of the stage list (bounds the resolution chain). -/
def stagesLength (stages : Stages) : Nat :=
  match stages with
  | [] => 0
  | _ :: rest => stagesLength rest + 1

/-- `":" in s or "/" in s` — the heuristic for a concrete image reference. -/
def hasColonOrSlash (s : String) : Bool :=
  s.data.contains ':' || s.data.contains '/'

/-- Errors raised by `resolve_base_image` (both `ValueError` in Python,
distinguished here by their message). -/
inductive ResolveErr where
  /-- "Circular stage reference detected: {current}" -/
  | circular (name : String)
  /-- "Cannot resolve base image: stage '{current}' not found" -/
  | unresolved (name : String)
deriving DecidableEq

/-- The `while current in stages` loop of `resolve_base_image`.  `fuel` only
guarantees termination; any fuel larger than the number of stages is enough,
because each iteration either stops or adds a distinct stage name to
`visited`. -/
def resolveLoop (stages : Stages) : Nat → List String → String → Except ResolveErr String
  | 0, _, current => .error (.unresolved current)
  | fuel + 1, visited, current =>
    match lookupStage current stages with
    | some st =>
      if visited.contains current then
        .error (.circular current)
      else
        resolveLoop stages fuel (current :: visited) st.frm
    | none =>
      if hasColonOrSlash current then
        .ok current
      else
        .error (.unresolved current)

/-- `resolve_base_image` (core/templates.py): walk the stage chain until a
Docker image (contains ':' or '/') is found. -/
def resolve_base_image (frm : String) (stages : Stages) : Except ResolveErr String :=
  resolveLoop stages (stagesLength stages + 1) [] frm

/-- The five dnf-family distribution substrings tested by
`detect_package_manager`. -/
def dnfDistros : List String := ["fedora", "centos", "rhel", "rocky", "alma"]

/-- `any(distro in image_lower for distro in [...])`. -/
def anyContains (subs : List String) (s : String) : Bool :=
  subs.any (fun d => containsSub d s)

/-- `detect_package_manager` (core/templates.py): "alpine" ⇒ apk, one of the
dnf-family distros ⇒ dnf, anything else ⇒ apt, on the lowercased image name. -/
def detect_package_manager (base_image : String) : String :=
  if containsSub "alpine" (lowerStr base_image) = true then "apk"
  else if anyContains dnfDistros (lowerStr base_image) = true then "dnf"
  else "apt"

/-- `detect_shell` (core/templates.py): "alpine" ⇒ `/bin/sh`, else `/bin/bash`. -/
def detect_shell (base_image : String) : String :=
  if containsSub "alpine" (lowerStr base_image) = true then "/bin/sh"
  else "/bin/bash"

/-- `detect_user_creation_style` (core/templates.py): "alpine" ⇒ BusyBox
adduser dialect, else GNU useradd dialect. -/
def detect_user_creation_style (base_image : String) : String :=
  if containsSub "alpine" (lowerStr base_image) = true then "alpine"
  else "standard"

/-! ### `core/config.py` — resolved user configuration -/

/-- `UserConfig` (core/config.py): name required, uid/gid defaulting to 1000,
optional home directory. -/
structure UserConfig where
  name : String
  uid : Int
  gid : Int
  home : Option String
deriving DecidableEq

/-- Field resolution of `UserConfig`: pydantic applies the default 1000 only
when the field is absent, so a supplied value — including `0` — is kept
verbatim (presence-based, not truthiness-based, defaulting). -/
def UserConfig.ofFields (name : String) (uid? gid? : Option Int)
    (home? : Option String) : UserConfig :=
  { name := name, uid := uid?.getD 1000, gid := gid?.getD 1000, home := home? }

/-- Modelled from the spec: the home path defaults to `/home/{name}` only when
no home is configured (the consumer of the `home` field is in the emitter,
which is absent from the source snapshot). -/
def UserConfig.homeDir (u : UserConfig) : String :=
  match u.home with
  | some h => h
  | none => "/home/" ++ u.name

/-! ### Default build order (generators/dockerfile.py, process_stage_build_steps) -/

/-- The step list actually compiled for a stage: when no step list is declared,
a stage built `FROM` a Docker image (its `from` contains ':' or '/') gets the
full default build order, while a stage built from another stage defaults to
the empty list; a declared list — even an empty one — is used as-is. -/
def effectiveBuildSteps (st : StageConfig) : List String :=
  match st.steps with
  | none =>
    if hasColonOrSlash st.frm then
      ["install_system_packages", "install_pip_packages", "create_user"]
    else
      []
  | some steps => steps

/-! ### The build-step compiler (modelled from the spec) -/

/-- Ownership context: which container user is active. -/
inductive OwnershipContext where
  | root
  | user
deriving DecidableEq

/-- The three copy variants of the step vocabulary. -/
inductive CopyVariant where
  /-- `copy`: chown applied iff the current context is USER. -/
  | plain
  /-- `copy_as_user`: chown always applied. -/
  | asUser
  /-- `copy_as_root`: chown never applied. -/
  | asRoot
deriving DecidableEq

/-- Modelled from the spec: the closed classification of a raw step string
(§3 BuildStep) — keyword, copy variant, verbatim instruction, or shell
command. -/
inductive BuildStep where
  | installSystemPackages
  | installPipPackages
  | createUser
  | switchUser
  | switchRoot
  | copyCachedAssets
  | copyStep (variant : CopyVariant) (args : List String)
  | rawInstruction (text : String)
  | shellCommand (text : String)
deriving DecidableEq

/-- The uppercase Docker instruction keywords recognised for verbatim
pass-through (§6). -/
def dockerInstructionKeywords : List String :=
  ["ARG", "CMD", "COPY", "ENTRYPOINT", "ENV", "EXPOSE",
   "HEALTHCHECK", "LABEL", "RUN", "SHELL", "STOPSIGNAL"]

/-- Modelled from the spec: classify one raw step string.  The lowercase
keyword forms match exactly (case-sensitive closed set, §6); copy variants are
recognised by their first token with the remaining tokens as arguments; a step
whose first token is an uppercase Docker instruction keyword is a verbatim
pass-through; anything else is a shell command. -/
def classifyStep (s : String) : BuildStep :=
  if s = "install_system_packages" then .installSystemPackages
  else if s = "install_pip_packages" then .installPipPackages
  else if s = "create_user" then .createUser
  else if s = "switch_user" ∨ s = "become_user" then .switchUser
  else if s = "switch_root" ∨ s = "become_root" then .switchRoot
  else if s = "copy_cached_assets" then .copyCachedAssets
  else if firstWord s = "copy" then .copyStep .plain ((tokens s).drop 1)
  else if firstWord s = "copy_as_user" then .copyStep .asUser ((tokens s).drop 1)
  else if firstWord s = "copy_as_root" then .copyStep .asRoot ((tokens s).drop 1)
  else if firstWord s ∈ dockerInstructionKeywords then
    .rawInstruction s
  else .shellCommand s

/-- Per-stage metadata computed by the generator before compiling steps. -/
structure StageMeta where
  pm : String
  shell : String
  style : String
deriving DecidableEq

/-- Modelled from the spec: per-stage metadata is detected from the *resolved*
base image (the concrete image obtained by following the `from` chain), with
explicit per-stage `package_manager` / `shell` configuration overriding
detection (§4.2). -/
def stageMetadata (stages : Stages) (st : StageConfig) : Except ResolveErr StageMeta :=
  match resolve_base_image st.frm stages with
  | .error e => .error e
  | .ok img =>
    .ok { pm := st.package_manager.getD (detect_package_manager img),
          shell := st.shell.getD (detect_shell img),
          style := detect_user_creation_style img }

/-- The chown annotation applied to copies (§4.4). -/
def chownFlag : String := "--chown=${UID}:${GID}"

/-- Modelled from the spec: the package-install command for each manager. -/
def pmInstallCmd (pm : String) : String :=
  if pm = "apk" then "apk add --no-cache"
  else if pm = "dnf" then "dnf install -y"
  else "apt-get update && apt-get install -y"

/-- Modelled from the spec: the user-creation line per dialect — BusyBox
`adduser` with the group referenced by *name* on Alpine, GNU `useradd` with
the numeric gid elsewhere; uid/gid are embedded literally (including `0`) and
the home directory defaults to `/home/{name}` (§4.2, §4.4). -/
def createUserLine (style : String) (u : UserConfig) : String :=
  if style = "alpine" then
    "RUN addgroup -g " ++ toString u.gid ++ " " ++ u.name ++
      " && adduser -D -u " ++ toString u.uid ++ " -G " ++ u.name ++
      " -h " ++ u.homeDir ++ " " ++ u.name
  else
    "RUN groupadd -g " ++ toString u.gid ++ " " ++ u.name ++
      " && useradd -m -u " ++ toString u.uid ++ " -g " ++ toString u.gid ++
      " -d " ++ u.homeDir ++ " " ++ u.name

/-- Number of positional (non-flag) arguments of a copy step. -/
def positionalCount (args : List String) : Nat :=
  (args.filter (fun a => ¬ (isPrefixCL "--".data a.data = true))).length

/-- Modelled from the spec: compile one classified step in a context (§4.4).
Returns the new context and the emitted instruction lines, or a fatal error
message.  `create_user` and `switch_user` are fatal when no `UserConfig`
resolves for the project; copies with fewer than two positional arguments are
fatal; a `copy` is chown-annotated iff the context is USER, `copy_as_user`
always, `copy_as_root` never; raw instructions pass through verbatim; shell
commands are wrapped in `RUN` with lines joined by `&&`. -/
def stepCompile (ucfg : Option UserConfig) (meta : StageMeta) (st : StageConfig)
    (ctx : OwnershipContext) : BuildStep → Except String (OwnershipContext × List String)
  | .installSystemPackages =>
    .ok (ctx, ["RUN " ++ pmInstallCmd meta.pm ++ " " ++ joinWith " " st.packages_apt])
  | .installPipPackages =>
    .ok (ctx, ["RUN pip install " ++ joinWith " " st.packages_pip])
  | .createUser =>
    match ucfg with
    | none => .error "create_user requires a user, but production.user is not defined"
    | some u => .ok (ctx, [createUserLine meta.style u])
  | .switchUser =>
    match ucfg with
    | none => .error "switch_user requires a user, but production.user is not defined"
    | some _ => .ok (.user, ["USER ${USER_NAME}"])
  | .switchRoot => .ok (.root, ["USER root"])
  | .copyCachedAssets =>
    .ok (ctx, st.cached_assets.map (fun sd => "COPY " ++ sd.1 ++ " " ++ sd.2))
  | .copyStep variant args =>
    if positionalCount args < 2 then
      .error "copy requires at least 2 path arguments"
    else
      let chown :=
        match variant, ctx with
        | .plain, .user => true
        | .plain, .root => false
        | .asUser, _ => true
        | .asRoot, _ => false
      .ok (ctx, ["COPY " ++ joinWith " " ((if chown then [chownFlag] else []) ++ args)])
  | .rawInstruction text => .ok (ctx, [text])
  | .shellCommand text =>
    .ok (ctx, ["RUN " ++ joinWith " && " (splitOnChar (Char.ofNat 10) text)])

/-- Fold `stepCompile` over an ordered step list, threading the context and
concatenating emitted instructions; a fatal error aborts the fold. -/
def compileSteps (ucfg : Option UserConfig) (meta : StageMeta) (st : StageConfig) :
    OwnershipContext → List BuildStep → Except String (OwnershipContext × List String)
  | ctx, [] => .ok (ctx, [])
  | ctx, b :: rest =>
    match stepCompile ucfg meta st ctx b with
    | .error e => .error e
    | .ok (ctx2, instrs) =>
      match compileSteps ucfg meta st ctx2 rest with
      | .error e => .error e
      | .ok (ctx3, instrs2) => .ok (ctx3, instrs ++ instrs2)

/-- The `while` loop of the `switch_user` validation in
`process_stage_build_steps` (generators/dockerfile.py): walk up the stage
hierarchy looking for a *declared* step list containing `"create_user"`,
keeping a visited set and stopping at unknown stages.  `fuel` larger than the
number of stages is enough, since each iteration visits a fresh stage. -/
def findCreateUserInChain (stages : Stages) : Nat → List String → String → Bool
  | 0, _, _ => false
  | fuel + 1, visited, current =>
    match lookupStage current stages with
    | none => false
    | some st =>
      if visited.contains current then false
      else if (st.steps.getD []).contains "create_user" then true
      else if (lookupStage st.frm stages).isSome then
        findCreateUserInChain stages fuel (current :: visited) st.frm
      else false

/-- Whether some `create_user` is found for a stage: either in its own
(compiled, i.e. defaulted) step list, or in a declared step list somewhere in
its ancestor chain — the `user_created` flag of `process_stage_build_steps`. -/
def userCreatedForStage (stages : Stages) (stageName : String) (st : StageConfig) : Bool :=
  (effectiveBuildSteps st).contains "create_user"
    || findCreateUserInChain stages (stagesLength stages + 1) [] stageName

/-- Whether the stage's step list switches to the user
(`switch_user` or its alias `become_user`). -/
def hasSwitchUserStep (st : StageConfig) : Bool :=
  (effectiveBuildSteps st).contains "switch_user"
    || (effectiveBuildSteps st).contains "become_user"

/-- The non-fatal diagnostics collected for a stage: a warning when
`switch_user` is used but no `create_user` is found in this stage or any
ancestor stage (compilation continues). -/
def stageWarnings (stages : Stages) (stageName : String) (st : StageConfig) : List String :=
  if hasSwitchUserStep st && !userCreatedForStage stages stageName st then
    ["Warning: Stage '" ++ stageName ++
      "' uses 'switch_user' but no 'create_user' found in this stage or parent stages"]
  else
    []

/-- The result of compiling one stage: the emitted instruction lines in input
order, and the collected non-fatal warnings. -/
structure CompileResult where
  instructions : List String
  warnings : List String
deriving DecidableEq

/-- Modelled from the spec: compile a whole stage.  The raw step list (with
the default build order substituted when none is declared) is classified and
folded through `stepCompile` from the inherited entry context; warnings are
collected alongside; a fatal error aborts compilation of the stage with the
stage name prepended for context (§4.4, §7). -/
def compileStage (ucfg : Option UserConfig) (meta : StageMeta) (stages : Stages)
    (stageName : String) (st : StageConfig) (entry : OwnershipContext) :
    Except String CompileResult :=
  let classified := (effectiveBuildSteps st).map classifyStep
  match compileSteps ucfg meta st entry classified with
  | .error e => .error ("Stage '" ++ stageName ++ "': " ++ e)
  | .ok (_, instrs) =>
    .ok { instructions := instrs, warnings := stageWarnings stages stageName st }

/-- The eight argument-less lowercase step keywords of the closed vocabulary. -/
def lowercaseStepKeywords : List String :=
  ["install_system_packages", "install_pip_packages", "create_user",
   "switch_user", "become_user", "switch_root", "become_root", "copy_cached_assets"]

/-- The leading tokens of the copy variants. -/
def copyVariantKeywords : List String := ["copy", "copy_as_user", "copy_as_root"]

/-- A sample resolved user for concrete compilations. -/
def sampleUser : UserConfig := ⟨"appuser", 1000, 1000, none⟩

/-- Sample stage metadata (Debian family). -/
def sampleMeta : StageMeta := ⟨"apt", "/bin/bash", "standard"⟩

/-- A sample stage for instantiating `stepCompile`. -/
def sampleStage : StageConfig := { frm := "python:3-slim" }

/-! ## Helper lemmas -/

/-- With no resolved user, a `create_user` or `switch_user` step anywhere in
the list makes the fold fail (some fatal error is raised — the user-policy
one, or an earlier fatal if one precedes it). -/
theorem compileSteps_userStep_error (meta : StageMeta) (st : StageConfig) :
    ∀ (l : List BuildStep) (ctx : OwnershipContext),
      BuildStep.createUser ∈ l ∨ BuildStep.switchUser ∈ l →
      ∃ e, compileSteps none meta st ctx l = .error e
  | [], _, h => by simp at h
  | b :: rest, ctx, h => by
    by_cases hc : b = BuildStep.createUser
    · subst hc
      exact ⟨_, rfl⟩
    by_cases hs : b = BuildStep.switchUser
    · subst hs
      exact ⟨_, rfl⟩
    have h' : BuildStep.createUser ∈ rest ∨ BuildStep.switchUser ∈ rest := by
      rcases h with h | h
      · rcases List.mem_cons.mp h with h1 | h1
        · exact absurd h1.symm hc
        · exact Or.inl h1
      · rcases List.mem_cons.mp h with h1 | h1
        · exact absurd h1.symm hs
        · exact Or.inr h1
    cases hst : stepCompile none meta st ctx b with
    | error e => exact ⟨e, by simp [compileSteps, hst]⟩
    | ok p =>
      obtain ⟨ctx2, instrs⟩ := p
      obtain ⟨e, he⟩ := compileSteps_userStep_error meta st rest ctx2 h'
      exact ⟨e, by simp [compileSteps, hst, he]⟩

/-- `classifyStep` sends `"create_user"` to the `createUser` keyword. -/
theorem classifyStep_create_user : classifyStep "create_user" = .createUser := rfl

/-- `classifyStep` sends `"switch_user"` to the `switchUser` keyword. -/
theorem classifyStep_switch_user : classifyStep "switch_user" = .switchUser := rfl

/-- A step whose first token is an uppercase Docker instruction keyword is
classified as a verbatim pass-through. -/
theorem classifyStep_upper (s : String) (h : firstWord s ∈ dockerInstructionKeywords) :
    classifyStep s = .rawInstruction s := by
  unfold classifyStep
  split_ifs with h1 h2 h3 h4 h5 h6 h7 h8 h9
  · subst h1; exact absurd h (by decide)
  · subst h2; exact absurd h (by decide)
  · subst h3; exact absurd h (by decide)
  · rcases h4 with h4 | h4 <;> (subst h4; exact absurd h (by decide))
  · rcases h5 with h5 | h5 <;> (subst h5; exact absurd h (by decide))
  · subst h6; exact absurd h (by decide)
  · rw [h7] at h; exact absurd h (by decide)
  · rw [h8] at h; exact absurd h (by decide)
  · rw [h9] at h; exact absurd h (by decide)
  · rfl

/-- A step that is no lowercase keyword, no copy variant, and does not start
with an uppercase instruction keyword is classified as a shell command. -/
theorem classifyStep_shell (s : String) (hk : s ∉ lowercaseStepKeywords)
    (hcv : firstWord s ∉ copyVariantKeywords)
    (hup : firstWord s ∉ dockerInstructionKeywords) :
    classifyStep s = .shellCommand s := by
  unfold classifyStep
  split_ifs with h1 h2 h3 h4 h5 h6 h7 h8 h9
  · subst h1; exact absurd (by decide) hk
  · subst h2; exact absurd (by decide) hk
  · subst h3; exact absurd (by decide) hk
  · rcases h4 with h4 | h4 <;> (subst h4; exact absurd (by decide) hk)
  · rcases h5 with h5 | h5 <;> (subst h5; exact absurd (by decide) hk)
  · subst h6; exact absurd (by decide) hk
  · rw [h7] at hcv; exact absurd (by decide) hcv
  · rw [h8] at hcv; exact absurd (by decide) hcv
  · rw [h9] at hcv; exact absurd (by decide) hcv
  · rfl

/-- The alpine test decides `detect_package_manager s = "apk"`. -/
theorem detect_pm_eq_apk (s : String) :
    detect_package_manager s = "apk" ↔ containsSub "alpine" (lowerStr s) = true := by
  unfold detect_package_manager
  cases h : containsSub "alpine" (lowerStr s)
  · cases h2 : anyContains dnfDistros (lowerStr s) <;> simp [h, h2]
  · simp [h]

/-- The alpine test decides `detect_shell s = "/bin/sh"`. -/
theorem detect_shell_eq_sh (s : String) :
    detect_shell s = "/bin/sh" ↔ containsSub "alpine" (lowerStr s) = true := by
  unfold detect_shell
  cases h : containsSub "alpine" (lowerStr s) <;> simp [h]

/-- The alpine test decides `detect_user_creation_style s = "alpine"`. -/
theorem detect_style_eq_alpine (s : String) :
    detect_user_creation_style s = "alpine" ↔ containsSub "alpine" (lowerStr s) = true := by
  unfold detect_user_creation_style
  cases h : containsSub "alpine" (lowerStr s) <;> simp [h]

/-! ## Claim theorems -/

/-- **C1**: Chown annotation of copies tracks the ownership context: for
`[create_user, switch_user, copy a b]` the emitted COPY carries
`--chown=${UID}:${GID}`; for `[copy a b, create_user, switch_user]` the same
copy carries no chown; `copy_as_user` emits a chown-annotated COPY even in a
ROOT context; `copy_as_root` emits a COPY without chown even in a USER
context. -/
theorem ownership_chown_annotation :
    (compileStage (some sampleUser) sampleMeta [] "base"
        { frm := "python:3-slim", steps := some ["create_user", "switch_user", "copy a b"] }
        .root =
      .ok { instructions := [createUserLine "standard" sampleUser, "USER ${USER_NAME}",
                             "COPY --chown=${UID}:${GID} a b"],
            warnings := [] }) ∧
    (compileStage (some sampleUser) sampleMeta [] "base"
        { frm := "python:3-slim", steps := some ["copy a b", "create_user", "switch_user"] }
        .root =
      .ok { instructions := ["COPY a b", createUserLine "standard" sampleUser,
                             "USER ${USER_NAME}"],
            warnings := [] }) ∧
    (compileStage (some sampleUser) sampleMeta [] "base"
        { frm := "python:3-slim", steps := some ["copy_as_user a b"] } .root =
      .ok { instructions := ["COPY --chown=${UID}:${GID} a b"], warnings := [] }) ∧
    (compileStage (some sampleUser) sampleMeta [] "base"
        { frm := "python:3-slim", steps := some ["copy_as_root a b"] } .user =
      .ok { instructions := ["COPY a b"], warnings := [] }) :=
  ⟨rfl, rfl, rfl, rfl⟩

/-- **C2**: user-policy failure semantics — a stage whose steps contain
`create_user` or `switch_user` with no resolved `UserConfig` fails fatally,
and on the user-policy step the message contains
"production.user is not defined"; a `switch_user` with no `create_user` found
in the stage or its ancestors only produces a warning and still compiles to
output. -/
theorem user_policy_failure_semantics :
    (∀ (meta : StageMeta) (stages : Stages) (stageName : String) (st : StageConfig)
        (entry : OwnershipContext),
      ("create_user" ∈ effectiveBuildSteps st ∨ "switch_user" ∈ effectiveBuildSteps st) →
      ∃ e, compileStage none meta stages stageName st entry = .error e) ∧
    (compileStage none sampleMeta [] "base"
        { frm := "python:3-slim", steps := some ["create_user"] } .root =
      .error "Stage 'base': create_user requires a user, but production.user is not defined") ∧
    (containsSub "production.user is not defined"
      "Stage 'base': create_user requires a user, but production.user is not defined" = true) ∧
    (∀ (stages : Stages) (stageName : String) (st : StageConfig),
      hasSwitchUserStep st = true → userCreatedForStage stages stageName st = false →
      stageWarnings stages stageName st ≠ []) ∧
    (compileStage (some sampleUser) sampleMeta [] "base"
        { frm := "python:3-slim", steps := some ["switch_user"] } .root =
      .ok { instructions := ["USER ${USER_NAME}"],
            warnings := ["Warning: Stage 'base' uses 'switch_user' but no 'create_user' found in this stage or parent stages"] }) := by
  refine ⟨?_, rfl, by decide, ?_, rfl⟩
  · intro meta stages stageName st entry h
    have hmem : BuildStep.createUser ∈ (effectiveBuildSteps st).map classifyStep ∨
        BuildStep.switchUser ∈ (effectiveBuildSteps st).map classifyStep := by
      rcases h with h | h
      · exact Or.inl (classifyStep_create_user ▸ List.mem_map_of_mem classifyStep h)
      · exact Or.inr (classifyStep_switch_user ▸ List.mem_map_of_mem classifyStep h)
    obtain ⟨e, he⟩ := compileSteps_userStep_error meta st _ entry hmem
    exact ⟨"Stage '" ++ stageName ++ "': " ++ e, by simp [compileStage, he]⟩
  · intro stages stageName st h1 h2
    simp [stageWarnings, h1, h2]

/-- Witness for **C2**: both hypothesised clauses applied at a concrete
stage: a `switch_user` stage with no user configured fails, and a
`switch_user` stage with no `create_user` anywhere warns. -/
theorem user_policy_failure_semantics_witness :
    (∃ e, compileStage none sampleMeta [] "dev"
        { frm := "x:y", steps := some ["switch_user"] } .root = .error e) ∧
    stageWarnings [] "dev" { frm := "x:y", steps := some ["switch_user"] } ≠ [] :=
  ⟨user_policy_failure_semantics.1 sampleMeta [] "dev"
      { frm := "x:y", steps := some ["switch_user"] } .root (Or.inr (by decide)),
   user_policy_failure_semantics.2.2.2.1 [] "dev"
      { frm := "x:y", steps := some ["switch_user"] } (by decide) (by decide)⟩

/-- **C3**: `become_user` and `become_root` are recognised keywords compiled
identically to `switch_user` / `switch_root`: `become_user` sets the context
to USER and emits `USER ${USER_NAME}`, `become_root` sets it to ROOT and
emits `USER root`; neither emitted instruction is a RUN shell command. -/
theorem become_alias_semantics (ucfg : Option UserConfig) (meta : StageMeta)
    (st : StageConfig) (ctx : OwnershipContext) (u : UserConfig) :
    classifyStep "become_user" = classifyStep "switch_user" ∧
    classifyStep "become_root" = classifyStep "switch_root" ∧
    classifyStep "become_user" = BuildStep.switchUser ∧
    classifyStep "become_root" = BuildStep.switchRoot ∧
    stepCompile (some u) meta st ctx (classifyStep "become_user") =
      .ok (.user, ["USER ${USER_NAME}"]) ∧
    stepCompile ucfg meta st ctx (classifyStep "become_root") =
      .ok (.root, ["USER root"]) ∧
    isPrefixCL "RUN".data "USER ${USER_NAME}".data = false ∧
    isPrefixCL "RUN".data "USER root".data = false :=
  ⟨rfl, rfl, rfl, rfl, rfl, rfl, by decide, by decide⟩

/-- **C4**: every step whose first token is an uppercase Docker instruction
keyword passes through verbatim (never RUN-wrapped, never chown-annotated —
the output is the input string itself, even for an uppercase COPY in USER
context); any other non-keyword string is emitted as `RUN <command>` with
embedded newlines joined by `&&`. -/
theorem step_classification_passthrough :
    (∀ (s : String) (ucfg : Option UserConfig) (meta : StageMeta) (st : StageConfig)
        (ctx : OwnershipContext), firstWord s ∈ dockerInstructionKeywords →
      classifyStep s = .rawInstruction s ∧
      stepCompile ucfg meta st ctx (classifyStep s) = .ok (ctx, [s])) ∧
    (∀ (s : String) (ucfg : Option UserConfig) (meta : StageMeta) (st : StageConfig)
        (ctx : OwnershipContext),
      s ∉ lowercaseStepKeywords → firstWord s ∉ copyVariantKeywords →
      firstWord s ∉ dockerInstructionKeywords →
      classifyStep s = .shellCommand s ∧
      stepCompile ucfg meta st ctx (classifyStep s) =
        .ok (ctx, ["RUN " ++ joinWith " && " (splitOnChar (Char.ofNat 10) s)])) ∧
    (∀ (ucfg : Option UserConfig) (meta : StageMeta) (st : StageConfig)
        (ctx : OwnershipContext),
      stepCompile ucfg meta st ctx (classifyStep "apt-get update\napt-get install -y curl") =
        .ok (ctx, ["RUN apt-get update && apt-get install -y curl"])) ∧
    (stepCompile (some sampleUser) sampleMeta sampleStage .user (classifyStep "COPY a b") =
      .ok (.user, ["COPY a b"])) := by
  refine ⟨?_, ?_, fun ucfg meta st ctx => rfl, rfl⟩
  · intro s ucfg meta st ctx h
    have hc := classifyStep_upper s h
    exact ⟨hc, by rw [hc]; rfl⟩
  · intro s ucfg meta st ctx h1 h2 h3
    have hc := classifyStep_shell s h1 h2 h3
    exact ⟨hc, by rw [hc]; rfl⟩

/-- Witness for **C4**: the pass-through clause at `"ARG BUILD_DATE"` and the
RUN-wrapping clause at `"echo hello"`. -/
theorem step_classification_passthrough_witness :
    (classifyStep "ARG BUILD_DATE" = .rawInstruction "ARG BUILD_DATE" ∧
      stepCompile none sampleMeta sampleStage .root (classifyStep "ARG BUILD_DATE") =
        .ok (.root, ["ARG BUILD_DATE"])) ∧
    (classifyStep "echo hello" = .shellCommand "echo hello" ∧
      stepCompile none sampleMeta sampleStage .root (classifyStep "echo hello") =
        .ok (.root, ["RUN echo hello"])) :=
  ⟨step_classification_passthrough.1 "ARG BUILD_DATE" none sampleMeta sampleStage .root
      (by decide),
   step_classification_passthrough.2.1 "echo hello" none sampleMeta sampleStage .root
      (by decide) (by decide) (by decide)⟩

/-- **C5**: stage-chain resolution — `resolve_base_image` follows the `from`
chain: the example `{web: from=base, base: from=alpine:3.19}` resolves `web`
to `alpine:3.19`; a direct image string (not a known stage, containing ':' or
'/') resolves to itself; a 2-cycle raises the circular-reference error; a
chain ending at an unknown bare token raises the unresolved-stage error. -/
theorem resolve_base_image_spec :
    (resolve_base_image "web" [("web", { frm := "base" }), ("base", { frm := "alpine:3.19" })] =
      .ok "alpine:3.19") ∧
    (∀ (frm : String) (stages : Stages), lookupStage frm stages = none →
      hasColonOrSlash frm = true → resolve_base_image frm stages = .ok frm) ∧
    (resolve_base_image "a" [("a", { frm := "b" }), ("b", { frm := "a" })] =
      .error (.circular "a")) ∧
    (resolve_base_image "base" [("base", { frm := "nonexistent" })] =
      .error (.unresolved "nonexistent")) := by
  refine ⟨rfl, ?_, rfl, rfl⟩
  intro frm stages h1 h2
  simp [resolve_base_image, resolveLoop, h1, h2]

/-- Witness for **C5**: the direct-image clause at a registry path. -/
theorem resolve_base_image_spec_witness :
    lookupStage "ghcr.io/org/image" [] = none ∧
    hasColonOrSlash "ghcr.io/org/image" = true ∧
    resolve_base_image "ghcr.io/org/image" [] = .ok "ghcr.io/org/image" :=
  ⟨rfl, by decide, resolve_base_image_spec.2.1 "ghcr.io/org/image" [] rfl (by decide)⟩

/-- **C6**: per-stage metadata is detected from the *resolved* base image —
the image reached by following the `from` chain — not from the raw `from`
value, and explicit per-stage `package_manager` / `shell` configuration
always overrides detection. -/
theorem detection_uses_resolved_image :
    (∀ (stages : Stages) (st : StageConfig) (img : String),
      resolve_base_image st.frm stages = .ok img →
      stageMetadata stages st =
        .ok { pm := st.package_manager.getD (detect_package_manager img),
              shell := st.shell.getD (detect_shell img),
              style := detect_user_creation_style img }) ∧
    (∀ (stages : Stages) (st : StageConfig) (img p sh : String),
      resolve_base_image st.frm stages = .ok img →
      st.package_manager = some p → st.shell = some sh →
      stageMetadata stages st =
        .ok { pm := p, shell := sh, style := detect_user_creation_style img }) ∧
    (stageMetadata [("base", { frm := "alpine:3.19" })] { frm := "base" } =
      .ok { pm := "apk", shell := "/bin/sh", style := "alpine" }) ∧
    (detect_package_manager "base" = "apt" ∧ detect_shell "base" = "/bin/bash" ∧
      detect_user_creation_style "base" = "standard") := by
  refine ⟨?_, ?_, rfl, by decide, by decide, by decide⟩
  · intro stages st img h
    simp [stageMetadata, h]
  · intro stages st img p sh h hp hs
    simp [stageMetadata, h, hp, hs]

/-- Witness for **C6**: both hypothesised clauses at the concrete stage map
`{base: from=alpine:3.19}` — a child stage with no overrides detects from the
resolved image, and one with explicit overrides keeps them. -/
theorem detection_uses_resolved_image_witness :
    stageMetadata [("base", { frm := "alpine:3.19" })]
        { frm := "base", package_manager := some "dnf", shell := some "/bin/zsh" } =
      .ok { pm := "dnf", shell := "/bin/zsh", style := "alpine" } :=
  detection_uses_resolved_image.2.1 [("base", { frm := "alpine:3.19" })]
    { frm := "base", package_manager := some "dnf", shell := some "/bin/zsh" }
    "alpine:3.19" "dnf" "/bin/zsh" rfl rfl rfl

/-- **C7**: the detection functions are total and match the ordered table for
every input string (case-insensitively): a name containing "alpine" yields
apk, /bin/sh and the BusyBox dialect; otherwise one containing a dnf-family
distro substring yields dnf; everything else yields apt, /bin/bash and the
GNU useradd dialect — including the table's concrete examples. -/
theorem detection_table_total :
    (∀ s : String, containsSub "alpine" (lowerStr s) = true →
      detect_package_manager s = "apk" ∧ detect_shell s = "/bin/sh" ∧
      detect_user_creation_style s = "alpine") ∧
    (∀ s : String, containsSub "alpine" (lowerStr s) = false →
      anyContains dnfDistros (lowerStr s) = true →
      detect_package_manager s = "dnf" ∧ detect_shell s = "/bin/bash" ∧
      detect_user_creation_style s = "standard") ∧
    (∀ s : String, containsSub "alpine" (lowerStr s) = false →
      anyContains dnfDistros (lowerStr s) = false →
      detect_package_manager s = "apt" ∧ detect_shell s = "/bin/bash" ∧
      detect_user_creation_style s = "standard") ∧
    (detect_package_manager "alpine:3.19" = "apk" ∧ detect_shell "alpine:3.19" = "/bin/sh" ∧
      detect_user_creation_style "alpine:3.19" = "alpine") ∧
    (detect_package_manager "fedora:39" = "dnf" ∧ detect_package_manager "rockylinux:9" = "dnf" ∧
      detect_package_manager "centos:stream9" = "dnf") ∧
    (detect_package_manager "debian:bookworm" = "apt" ∧
      detect_package_manager "ubuntu:22.04" = "apt" ∧
      detect_package_manager "python:3-slim" = "apt" ∧
      detect_shell "debian:bookworm" = "/bin/bash" ∧
      detect_shell "ubuntu:22.04" = "/bin/bash" ∧
      detect_shell "python:3-slim" = "/bin/bash" ∧
      detect_user_creation_style "debian:bookworm" = "standard" ∧
      detect_user_creation_style "ubuntu:22.04" = "standard" ∧
      detect_user_creation_style "python:3-slim" = "standard") := by
  refine ⟨?_, ?_, ?_, by decide, by decide, by decide⟩
  · intro s h
    exact ⟨by simp [detect_package_manager, h], by simp [detect_shell, h],
           by simp [detect_user_creation_style, h]⟩
  · intro s h1 h2
    exact ⟨by simp [detect_package_manager, h1, h2], by simp [detect_shell, h1],
           by simp [detect_user_creation_style, h1]⟩
  · intro s h1 h2
    exact ⟨by simp [detect_package_manager, h1, h2], by simp [detect_shell, h1],
           by simp [detect_user_creation_style, h1]⟩

/-- Witness for **C7**: each table row applied at one concrete image name. -/
theorem detection_table_total_witness :
    (containsSub "alpine" (lowerStr "alpine:3.19") = true ∧
      detect_package_manager "alpine:3.19" = "apk" ∧ detect_shell "alpine:3.19" = "/bin/sh" ∧
      detect_user_creation_style "alpine:3.19" = "alpine") ∧
    (containsSub "alpine" (lowerStr "fedora:39") = false ∧
      anyContains dnfDistros (lowerStr "fedora:39") = true ∧
      detect_package_manager "fedora:39" = "dnf") ∧
    detect_package_manager "ubuntu:22.04" = "apt" :=
  ⟨⟨by decide, detection_table_total.1 "alpine:3.19" (by decide)⟩,
   ⟨by decide, by decide, (detection_table_total.2.1 "fedora:39" (by decide) (by decide)).1⟩,
   (detection_table_total.2.2.1 "ubuntu:22.04" (by decide) (by decide)).1⟩

/-- **C8**: resolved `UserConfig` values are literal with presence-based
defaulting — uid/gid default to 1000 only when absent, a configured 0 is kept
verbatim in the emitted user-creation line (never replaced by 1000), and the
home path defaults to `/home/{name}` only when no home is configured. -/
theorem user_config_literal_values (name hm : String) (uid? gid? : Option Int)
    (home? : Option String) :
    (UserConfig.ofFields name uid? gid? home?).uid = uid?.getD 1000 ∧
    (UserConfig.ofFields name uid? gid? home?).gid = gid?.getD 1000 ∧
    (UserConfig.ofFields name (some 0) (some 0) home?).uid = 0 ∧
    (UserConfig.ofFields name (some 0) (some 0) home?).gid = 0 ∧
    (UserConfig.ofFields name none none home?).uid = 1000 ∧
    (UserConfig.ofFields name none none home?).gid = 1000 ∧
    (UserConfig.ofFields name uid? gid? none).homeDir = "/home/" ++ name ∧
    (UserConfig.ofFields name uid? gid? (some hm)).homeDir = hm ∧
    createUserLine "standard" (UserConfig.ofFields "app" (some 0) (some 0) none) =
      "RUN groupadd -g 0 app && useradd -m -u 0 -g 0 -d /home/app app" ∧
    containsSub "-u 0"
      (createUserLine "standard" (UserConfig.ofFields "app" (some 0) (some 0) none)) = true ∧
    containsSub "1000"
      (createUserLine "standard" (UserConfig.ofFields "app" (some 0) (some 0) none)) = false :=
  ⟨rfl, rfl, rfl, rfl, rfl, rfl, rfl, rfl, rfl, by decide, by decide⟩

/-- **C9**: when a stage declares no step list, the compiled default depends
on the shape of its `from` value — a concrete image reference (containing ':'
or '/') gets exactly `[install_system_packages, install_pip_packages,
create_user]`, a bare stage name gets the empty list — while a declared list,
including an empty one, is used as-is. -/
theorem default_build_steps_shape (st : StageConfig) (l : List String) :
    (st.steps = none → hasColonOrSlash st.frm = true →
      effectiveBuildSteps st =
        ["install_system_packages", "install_pip_packages", "create_user"]) ∧
    (st.steps = none → hasColonOrSlash st.frm = false → effectiveBuildSteps st = []) ∧
    (st.steps = some l → effectiveBuildSteps st = l) := by
  refine ⟨?_, ?_, ?_⟩
  · intro h1 h2
    simp [effectiveBuildSteps, h1, h2]
  · intro h1 h2
    simp [effectiveBuildSteps, h1, h2]
  · intro h1
    simp [effectiveBuildSteps, h1]

/-- Witness for **C9**: the three clauses at concrete stages — an image-based
stage with no steps, a stage-based stage with no steps, and a declared empty
list. -/
theorem default_build_steps_shape_witness :
    effectiveBuildSteps { frm := "python:3-slim" } =
      ["install_system_packages", "install_pip_packages", "create_user"] ∧
    effectiveBuildSteps { frm := "base" } = [] ∧
    effectiveBuildSteps { frm := "python:3-slim", steps := some [] } = [] :=
  ⟨(default_build_steps_shape { frm := "python:3-slim" } []).1 rfl (by decide),
   (default_build_steps_shape { frm := "base" } []).2.1 rfl (by decide),
   (default_build_steps_shape { frm := "python:3-slim", steps := some [] } []).2.2 rfl⟩

/-- **C10**: the three detectors agree on the Alpine branch — for every
string, `apk`, `/bin/sh` and the alpine user-creation dialect are each
equivalent to the lowercased string containing "alpine"; in particular a
string containing both "alpine" and a dnf distro substring yields apk. -/
theorem detectors_agree_alpine (s : String) :
    (detect_package_manager s = "apk" ↔ containsSub "alpine" (lowerStr s) = true) ∧
    (detect_shell s = "/bin/sh" ↔ containsSub "alpine" (lowerStr s) = true) ∧
    (detect_user_creation_style s = "alpine" ↔ containsSub "alpine" (lowerStr s) = true) ∧
    (detect_package_manager s = "apk" ↔ detect_shell s = "/bin/sh") ∧
    (detect_package_manager s = "apk" ↔ detect_user_creation_style s = "alpine") ∧
    detect_package_manager "alpine3.19-fedora" = "apk" :=
  ⟨detect_pm_eq_apk s, detect_shell_eq_sh s, detect_style_eq_alpine s,
   (detect_pm_eq_apk s).trans (detect_shell_eq_sh s).symm,
   (detect_pm_eq_apk s).trans (detect_style_eq_alpine s).symm,
   by decide⟩

end ContainerMagic
